import Mathlib

/-!
Shallow embedding of `src/goldmind_api_server.py` (class `GoldMINDAPI` and the
Flask route handlers) and proofs about the claims of the specification.

Modelling conventions:
* Python floats are modelled as `ℚ`; `round(x, n)` is modelled by `roundTo n`
  (round-half-to-even, as CPython's `round`), `int(x)` by `pyInt`.
* Wall-clock time (`time.time()` and `datetime.now()` alike) is a single
  explicit `now : ℚ` parameter measured in seconds; ISO timestamp strings are
  represented by that numeric instant.
* Every call to the `random` module is modelled by an explicit `Draws` record
  carrying the values the corresponding call would return.
* Python name resolution matters here: the module imports at the top of the
  file bind `flask` names, `os`, `sys`, `json`, `logging`, `datetime`,
  `timedelta`, `threading` and `time`, but `random` is imported only inside
  `get_market_analysis`, which creates a binding local to that function.  A
  reference to `random` from any other function looks the name up in the
  module globals and raises `NameError`.  `lookupModuleGlobal` models that
  lookup, and fallible code returns `Except PyErr`.
-/

namespace GoldMIND

/-- CPython `round` to an integer: nearest, ties to even. -/
def pyRoundInt (x : ℚ) : ℤ :=
  let f := ⌊x⌋
  let frac := x - (f : ℚ)
  if frac < 1/2 then f
  else if 1/2 < frac then f + 1
  else if f % 2 = 0 then f else f + 1

/-- CPython `round(x, n)`: round to `n` decimal digits, ties to even. -/
def roundTo (n : ℕ) (x : ℚ) : ℚ :=
  (pyRoundInt (x * (10 : ℚ) ^ n) : ℚ) / (10 : ℚ) ^ n

/-- CPython `int(x)` on a float: truncation toward zero. -/
def pyInt (x : ℚ) : ℤ :=
  if 0 ≤ x then ⌊x⌋ else -⌊-x⌋

/-- The Python exceptions that can arise in this module. -/
inductive PyErr where
  | nameError (n : String)
  deriving DecidableEq

/-- `str(e)` for the exceptions above (CPython renders the name between
single quotes; the quote characters are elided here). -/
def pyErrMsg : PyErr → String
  | .nameError n => "name " ++ n ++ " is not defined"

/-- Names bound in the module's global namespace by the top-level statements
of `goldmind_api_server.py` (imports on lines 7-14, then the module-level
assignments).  `random` is deliberately absent: it is only imported inside
`get_market_analysis`, a function-local binding. -/
def moduleTopLevelNames : List String :=
  ["Flask", "jsonify", "request", "render_template_string", "os", "sys",
   "json", "logging", "datetime", "timedelta", "threading", "time",
   "logger", "GoldMINDAPI", "app", "goldmind", "DASHBOARD_HTML"]

/-- Resolving a free variable against the module globals (the builtins hold
none of the names looked up this way); an unbound name raises `NameError`. -/
def lookupModuleGlobal (n : String) : Except PyErr Unit :=
  if n ∈ moduleTopLevelNames then Except.ok () else Except.error (PyErr.nameError n)

/-- One value for every `random` call the module text contains, in source
order: the draws `get_market_analysis` consumes, the three `random.choice`
results `get_user_profile` would consume, and the `random.choice` result the
final branch of `determine_action` would consume. -/
structure Draws where
  price_change : ℚ
  volume : ℕ
  rsi_raw : ℚ
  macd_raw : ℚ
  bollinger_position : String
  trend : String
  portfolio_size : String
  trading_frequency : String
  preferred_strategy : String
  action_choice : String
  deriving DecidableEq

/-- The dict returned by `get_market_analysis`. -/
structure MarketConditions where
  current_price : ℚ
  change_24h : ℚ
  change_percent_24h : ℚ
  volume : ℕ
  rsi : ℚ
  macd : ℚ
  bollinger_position : String
  trend : String
  volatility : ℚ
  deriving DecidableEq

/-- `GoldMINDAPI.get_market_analysis` (lines 101-121).  `import random` on
line 107 binds `random` locally, so its own `random` calls succeed. -/
def get_market_analysis (d : Draws) : MarketConditions :=
  let base_price : ℚ := 2000
  let volatility : ℚ := 2/100
  let price_change := d.price_change
  let current_price := base_price * (1 + price_change)
  { current_price := roundTo 2 current_price
    change_24h := roundTo 2 (current_price - base_price)
    change_percent_24h := roundTo 2 (price_change * 100)
    volume := d.volume
    rsi := roundTo 1 d.rsi_raw
    macd := roundTo 2 d.macd_raw
    bollinger_position := d.bollinger_position
    trend := d.trend
    volatility := roundTo 2 (volatility * 100) }

def risk_levels : List String := ["conservative", "moderate", "aggressive"]

def experience_levels : List String := ["beginner", "intermediate", "expert"]

/-- The subexpression `risk_levels[user_id % 3]` of `get_user_profile`. -/
def riskToleranceOf (user_id : ℕ) : String :=
  risk_levels.getD (user_id % 3) ""

/-- The subexpression `experience_levels[(user_id // 3) % 3]`. -/
def experienceLevelOf (user_id : ℕ) : String :=
  experience_levels.getD ((user_id / 3) % 3) ""

/-- The dict `get_user_profile` builds. -/
structure Profile where
  user_id : ℕ
  risk_tolerance : String
  experience_level : String
  portfolio_size : String
  trading_frequency : String
  preferred_strategy : String
  deriving DecidableEq

/-- `GoldMINDAPI.get_user_profile` (lines 123-136).  The dict literal's
values are evaluated in source order: `user_id`, the two deterministic index
expressions, then `random.choice(...)` for `portfolio_size` — whose lookup of
the free name `random` in the module globals raises `NameError`, because
`random` is bound only inside `get_market_analysis`. -/
def get_user_profile (user_id : ℕ) (d : Draws) : Except PyErr Profile := do
  let risk_tolerance := riskToleranceOf user_id
  let experience_level := experienceLevelOf user_id
  let _ ← lookupModuleGlobal "random"
  pure { user_id := user_id
         risk_tolerance := risk_tolerance
         experience_level := experience_level
         portfolio_size := d.portfolio_size
         trading_frequency := d.trading_frequency
         preferred_strategy := d.preferred_strategy }

/-- `GoldMINDAPI.determine_action` (lines 138-154).  The final branch
evaluates `random.choice([...])`; as in `get_user_profile` the free name
`random` is unbound in the module globals and raises `NameError` before any
choice is made.  `choice_draw` is the value that call would otherwise
return. -/
def determine_action (user_profile : Profile) (market_conditions : MarketConditions)
    (choice_draw : String) : Except PyErr String :=
  let rsi := market_conditions.rsi
  let trend := market_conditions.trend
  let risk_tolerance := user_profile.risk_tolerance
  if rsi < 30 ∧ trend = "bullish" then Except.ok "BUY"
  else if 70 < rsi ∧ trend = "bearish" then Except.ok "SELL"
  else if risk_tolerance = "conservative" then Except.ok "HOLD"
  else if trend = "sideways" then Except.ok "HOLD"
  else do
    let _ ← lookupModuleGlobal "random"
    pure choice_draw

/-- `GoldMINDAPI.calculate_confidence` (lines 156-173). -/
def calculate_confidence (user_profile : Profile)
    (market_conditions : MarketConditions) : ℚ :=
  let base_confidence : ℚ := 1/2
  let base_confidence :=
    if market_conditions.trend ≠ "sideways" then base_confidence + 2/10
    else base_confidence
  let base_confidence :=
    if 30 ≤ market_conditions.rsi ∧ market_conditions.rsi ≤ 70 then
      base_confidence + 1/10
    else base_confidence
  let base_confidence :=
    if user_profile.experience_level = "expert" then base_confidence + 1/10
    else if user_profile.experience_level = "beginner" then base_confidence - 1/10
    else base_confidence
  min (max base_confidence (1/10)) (95/100)

/-- `GoldMINDAPI.get_target_multiplier` (lines 175-178): dict lookup with
default `0.02`. -/
def get_target_multiplier (action : String) : ℚ :=
  (([("BUY", 5/100), ("SELL", -(3/100)), ("HOLD", 2/100)] :
      List (String × ℚ)).lookup action).getD (2/100)

/-- `GoldMINDAPI.get_stop_loss_multiplier` (lines 180-183): dict lookup with
default `0.02`. -/
def get_stop_loss_multiplier (action : String) : ℚ :=
  (([("BUY", 3/100), ("SELL", 5/100), ("HOLD", 2/100)] :
      List (String × ℚ)).lookup action).getD (2/100)

/-- The expression on line 70 building the `target_price` field. -/
def target_price_of (current_price : ℚ) (action : String) : ℚ :=
  roundTo 2 (current_price * (1 + get_target_multiplier action))

/-- The expression on line 71 building the `stop_loss` field. -/
def stop_loss_of (current_price : ℚ) (action : String) : ℚ :=
  roundTo 2 (current_price * (1 - get_stop_loss_multiplier action))

/-- `GoldMINDAPI.generate_reasoning` (lines 185-197): a template dict keyed
by action with a default string.  All three f-strings interpolate total
expressions, so the function never raises; `ℚ` values are rendered with
`toString`. -/
def generate_reasoning (action : String) (market_conditions : MarketConditions)
    (user_profile : Profile) : String :=
  let trend := market_conditions.trend
  let rsi := market_conditions.rsi
  let risk_level := user_profile.risk_tolerance
  if action = "BUY" then
    "Market showing " ++ trend ++ " trend with RSI at " ++ toString rsi ++
      ". Good entry point for " ++ risk_level ++ " investors."
  else if action = "SELL" then
    "Market conditions suggest profit-taking opportunity. RSI at " ++
      toString rsi ++ " indicates potential reversal."
  else if action = "HOLD" then
    "Current market conditions favor patience. " ++ trend.capitalize ++
      " trend with moderate volatility suggests maintaining positions."
  else
    "Market analysis suggests maintaining current strategy."

def configApiVersion : String := "1.0.0"

/-- The recommendation dict assembled on lines 66-79. -/
structure Recommendation where
  user_id : ℕ
  action : String
  confidence : ℚ
  target_price : ℚ
  stop_loss : ℚ
  reasoning : String
  market_data : MarketConditions
  user_profile : Profile
  timestamp : ℚ
  expires_at : ℚ
  system_status : String
  api_version : String
  deriving DecidableEq

/-- The error dict returned by the `except` handler on lines 94-99. -/
structure ErrorPayload where
  error : String
  user_id : ℕ
  timestamp : ℚ
  system_status : String
  deriving DecidableEq

/-- A value `generate_recommendation` can return. -/
inductive Payload where
  | recPayload (r : Recommendation)
  | errPayload (e : ErrorPayload)
  deriving DecidableEq

/-- The error dict of lines 94-99 for a caught exception `e`. -/
def errorPayload (user_id : ℕ) (now : ℚ) (e : PyErr) : ErrorPayload :=
  { error := pyErrMsg e
    user_id := user_id
    timestamp := now
    system_status := "error" }

/-- `self.system_metrics` (lines 35-40). -/
structure Metrics where
  requests_count : ℕ
  successful_recommendations : ℕ
  errors : ℕ
  uptime_start : ℚ
  deriving DecidableEq

/-- One value of `self.recommendation_cache[key]` (lines 82-85). -/
structure CacheEntry where
  data : Payload
  cache_time : ℚ
  deriving DecidableEq

/-- The mutable state of the `GoldMINDAPI` instance: the cache dict (kept as
an association list with pairwise-distinct keys) and the metrics dict. -/
structure ApiState where
  recommendation_cache : List (String × CacheEntry)
  metrics : Metrics
  deriving DecidableEq

/-- `self.cache_timeout = 300` (line 34). -/
def cache_timeout : ℚ := 300

/-- The state `GoldMINDAPI.__init__` builds at process start `start`. -/
def initialState (start : ℚ) : ApiState :=
  { recommendation_cache := []
    metrics := { requests_count := 0, successful_recommendations := 0,
                 errors := 0, uptime_start := start } }

/-- Python dict read `d[k]` guarded by `k in d`. -/
def dictGet (d : List (String × CacheEntry)) (k : String) : Option CacheEntry :=
  match d.find? (fun kv => kv.1 == k) with
  | some kv => some kv.2
  | none => none

/-- Python dict write `d[k] = v`: replaces the old binding or appends. -/
def dictSet (d : List (String × CacheEntry)) (k : String) (v : CacheEntry) :
    List (String × CacheEntry) :=
  (d.filter (fun kv => kv.1 != k)) ++ [(k, v)]

/-- The cache read of lines 49-56: the payload returned from cache when an
entry for the user's key exists whose age is strictly below the timeout,
`none` when the entry is absent or stale. -/
def cacheFresh (s : ApiState) (user_id : ℕ) (now : ℚ) : Option Payload :=
  match dictGet s.recommendation_cache ("user_" ++ toString user_id) with
  | some cached_rec =>
      if now - cached_rec.cache_time < cache_timeout then some cached_rec.data
      else none
  | none => none

/-- Steps 1-8 of the generation pipeline (lines 59-79): market analysis,
user profile, action, confidence, and the assembled recommendation dict.
Any `NameError` raised inside propagates out of this `do` block to the
`except` handler of `generate_recommendation`. -/
def pipeline (user_id : ℕ) (now : ℚ) (d : Draws) : Except PyErr Recommendation := do
  let market_conditions := get_market_analysis d
  let user_profile ← get_user_profile user_id d
  let action ← determine_action user_profile market_conditions d.action_choice
  let confidence := calculate_confidence user_profile market_conditions
  pure { user_id := user_id
         action := action
         confidence := roundTo 3 confidence
         target_price := target_price_of market_conditions.current_price action
         stop_loss := stop_loss_of market_conditions.current_price action
         reasoning := generate_reasoning action market_conditions user_profile
         market_data := market_conditions
         user_profile := user_profile
         timestamp := now
         expires_at := now + 300
         system_status := "operational"
         api_version := configApiVersion }

/-- `GoldMINDAPI.generate_recommendation` (lines 43-99).  The request
counter is incremented first; a fresh cache entry is returned as-is; on a
miss the pipeline runs, and its result is cached and counted as a success,
while a raised exception is caught, counted, and converted into the error
payload.  The function is total: no exception propagates to the caller. -/
def generate_recommendation (s : ApiState) (user_id : ℕ) (now : ℚ) (d : Draws) :
    Payload × ApiState :=
  let s1 : ApiState :=
    { s with metrics :=
        { s.metrics with requests_count := s.metrics.requests_count + 1 } }
  match cacheFresh s1 user_id now with
  | some cached => (cached, s1)
  | none =>
      match pipeline user_id now d with
      | .error e =>
          (Payload.errPayload (errorPayload user_id now e),
           { s1 with metrics :=
               { s1.metrics with errors := s1.metrics.errors + 1 } })
      | .ok recommendation =>
          let entry : CacheEntry :=
            { data := Payload.recPayload recommendation, cache_time := now }
          let s2 : ApiState :=
            { s1 with recommendation_cache :=
                dictSet s1.recommendation_cache ("user_" ++ toString user_id) entry }
          (Payload.recPayload recommendation,
           { s2 with metrics :=
               { s2.metrics with successful_recommendations :=
                   s2.metrics.successful_recommendations + 1 } })

/-- The `metrics` sub-dict of the health check (lines 209-217). -/
structure HealthMetrics where
  total_requests : ℕ
  successful_recommendations : ℕ
  error_count : ℕ
  success_rate : ℚ
  cache_size : ℕ
  deriving DecidableEq

/-- The health-check dict (lines 199-225).  The constant presentation
fields (`uptime_formatted`, `components`, `configuration`) carry no state
beyond what is already here and are not modelled. -/
structure HealthSnapshot where
  status : String
  timestamp : ℚ
  version : String
  uptime_seconds : ℤ
  metrics : HealthMetrics
  deriving DecidableEq

/-- `GoldMINDAPI.health_check` (lines 199-225). -/
def health_check (s : ApiState) (now : ℚ) : HealthSnapshot :=
  let uptime := now - s.metrics.uptime_start
  { status := "healthy"
    timestamp := now
    version := configApiVersion
    uptime_seconds := pyInt uptime
    metrics :=
      { total_requests := s.metrics.requests_count
        successful_recommendations := s.metrics.successful_recommendations
        error_count := s.metrics.errors
        success_rate := roundTo 2
          (((s.metrics.successful_recommendations : ℚ) /
              ((max s.metrics.requests_count 1 : ℕ) : ℚ)) * 100)
        cache_size := s.recommendation_cache.length } }

/-- The `/metrics` response of `get_system_metrics` (lines 227-236). -/
structure MetricsSnapshot where
  timestamp : ℚ
  metrics : Metrics
  cache_size : ℕ
  cache_timeout_field : ℚ
  deriving DecidableEq

/-- `GoldMINDAPI.get_system_metrics` (lines 227-236): a pure read. -/
def get_system_metrics (s : ApiState) (now : ℚ) : MetricsSnapshot :=
  { timestamp := now
    metrics := s.metrics
    cache_size := s.recommendation_cache.length
    cache_timeout_field := cache_timeout }

/-- The route handler `get_recommendation` (lines 397-405).  The `try` body
calls `generate_recommendation` and serialises its dict with the default
HTTP status 200; the `except` branch (body `{error}` with status 500) fires
only if the `try` body itself raises, and `generate_recommendation` catches
every exception internally and `jsonify` of its dict cannot raise, so the
handler always takes the 200 path. -/
def get_recommendation_route (s : ApiState) (user_id : ℕ) (now : ℚ) (d : Draws) :
    (Payload × ℕ) × ApiState :=
  let (recommendation, s1) := generate_recommendation s user_id now d
  ((recommendation, 200), s1)

/-- The state-touching operations of the system. -/
inductive Op where
  | recommend (user_id : ℕ) (now : ℚ) (d : Draws)
  | healthOp (now : ℚ)
  | metricsOp (now : ℚ)

/-- State transition of one operation: only recommendation requests mutate
the state; health and metrics reads leave it unchanged. -/
def step (s : ApiState) : Op → ApiState
  | .recommend user_id now d => (generate_recommendation s user_id now d).2
  | .healthOp _ => s
  | .metricsOp _ => s

/-- Running a sequence of operations. -/
def runOps (s : ApiState) (ops : List Op) : ApiState :=
  ops.foldl step s

/-- States the process can actually be in: reachable from some initial
state by some sequence of operations. -/
def Reachable (s : ApiState) : Prop :=
  ∃ start ops, runOps (initialState start) ops = s

/-- A fixed assignment for every random draw, used for concrete runs. -/
def sampleDraws : Draws :=
  { price_change := 0, volume := 1000000, rsi_raw := 50, macd_raw := 0,
    bollinger_position := "middle", trend := "bullish",
    portfolio_size := "small", trading_frequency := "daily",
    preferred_strategy := "swing", action_choice := "BUY" }

/-- A concrete profile dict for unit-level inputs to `determine_action` and
`calculate_confidence`. -/
def probeProfile (risk : String) : Profile :=
  { user_id := 1, risk_tolerance := risk, experience_level := "intermediate",
    portfolio_size := "small", trading_frequency := "daily",
    preferred_strategy := "swing" }

/-- A concrete market dict with a chosen RSI and trend. -/
def probeMarket (rsi : ℚ) (trend : String) : MarketConditions :=
  { current_price := 2000, change_24h := 0, change_percent_24h := 0,
    volume := 1000000, rsi := rsi, macd := 0,
    bollinger_position := "middle", trend := trend, volatility := 2 }

/-- A state with chosen counter values and an empty cache. -/
def probeState (req succ err : ℕ) : ApiState :=
  { recommendation_cache := []
    metrics := { requests_count := req, successful_recommendations := succ,
                 errors := err, uptime_start := 0 } }

/-- Evaluation rule for `pyRoundInt` below the tie point. -/
lemma pyRoundInt_eq_of_lt_half (x : ℚ) (f : ℤ) (hf : ⌊x⌋ = f)
    (hlt : x - (f : ℚ) < 1/2) : pyRoundInt x = f := by
  simp only [pyRoundInt, hf]
  exact if_pos hlt

/-- Evaluation rule for `roundTo` below the tie point. -/
lemma roundTo_eq_of_lt_half (n : ℕ) (x : ℚ) (f : ℤ)
    (hf : ⌊x * (10 : ℚ) ^ n⌋ = f) (hlt : x * (10 : ℚ) ^ n - (f : ℚ) < 1/2) :
    roundTo n x = (f : ℚ) / (10 : ℚ) ^ n := by
  rw [roundTo, pyRoundInt_eq_of_lt_half _ f hf hlt]

lemma lookup_random_err :
    lookupModuleGlobal "random" = Except.error (PyErr.nameError "random") := rfl

lemma get_user_profile_err (user_id : ℕ) (d : Draws) :
    get_user_profile user_id d = Except.error (PyErr.nameError "random") := rfl

lemma pipeline_err (user_id : ℕ) (now : ℚ) (d : Draws) :
    pipeline user_id now d = Except.error (PyErr.nameError "random") := rfl

@[simp] lemma cacheFresh_metrics (s : ApiState) (m : Metrics) (user_id : ℕ) (now : ℚ) :
    cacheFresh { s with metrics := m } user_id now = cacheFresh s user_id now := rfl

/-- Cache miss plus a pipeline exception: the generator returns the error
payload and increments exactly the request and error counters. -/
lemma gen_err_aux (s : ApiState) (user_id : ℕ) (now : ℚ) (d : Draws) (e : PyErr)
    (hc : cacheFresh s user_id now = none)
    (hp : pipeline user_id now d = Except.error e) :
    generate_recommendation s user_id now d =
      (Payload.errPayload (errorPayload user_id now e),
       { s with metrics :=
           { s.metrics with requests_count := s.metrics.requests_count + 1,
                            errors := s.metrics.errors + 1 } }) := by
  simp [generate_recommendation, hc, hp]

/-- How one generator call moves the three counters. -/
lemma gen_metrics (s : ApiState) (user_id : ℕ) (now : ℚ) (d : Draws) :
    ((generate_recommendation s user_id now d).2).metrics.requests_count
        = s.metrics.requests_count + 1 ∧
    ((generate_recommendation s user_id now d).2).metrics.successful_recommendations
        = s.metrics.successful_recommendations ∧
    s.metrics.errors ≤ ((generate_recommendation s user_id now d).2).metrics.errors := by
  cases hc : cacheFresh s user_id now with
  | some p => simp [generate_recommendation, hc]
  | none => simp [generate_recommendation, hc, pipeline_err]

/-- One operation never decreases a counter and never touches the success
counter. -/
lemma step_metrics (s : ApiState) (op : Op) :
    s.metrics.requests_count ≤ (step s op).metrics.requests_count ∧
    (step s op).metrics.successful_recommendations
        = s.metrics.successful_recommendations ∧
    s.metrics.errors ≤ (step s op).metrics.errors := by
  cases op with
  | recommend user_id now d =>
      obtain ⟨h1, h2, h3⟩ := gen_metrics s user_id now d
      refine ⟨?_, ?_, ?_⟩ <;> simp only [step] <;> omega
  | healthOp now => exact ⟨le_refl _, rfl, le_refl _⟩
  | metricsOp now => exact ⟨le_refl _, rfl, le_refl _⟩

lemma runOps_metrics (s : ApiState) (ops : List Op) :
    s.metrics.requests_count ≤ (runOps s ops).metrics.requests_count ∧
    (runOps s ops).metrics.successful_recommendations
        = s.metrics.successful_recommendations ∧
    s.metrics.errors ≤ (runOps s ops).metrics.errors := by
  induction ops generalizing s with
  | nil => exact ⟨le_refl _, rfl, le_refl _⟩
  | cons op ops ih =>
      obtain ⟨h1, h2, h3⟩ := step_metrics s op
      obtain ⟨g1, g2, g3⟩ := ih (step s op)
      simp only [runOps, List.foldl_cons] at g1 g2 g3 ⊢
      exact ⟨le_trans h1 g1, g2.trans h2, le_trans h3 g3⟩

/-- In every reachable state the success counter is zero: the pipeline
always raises `NameError` before the success branch can run. -/
lemma reachable_succ_zero (s : ApiState) (h : Reachable s) :
    s.metrics.successful_recommendations = 0 := by
  obtain ⟨start, ops, rfl⟩ := h
  have h2 := (runOps_metrics (initialState start) ops).2.1
  simpa [initialState] using h2

/-- C1: the module never binds `random` at top level (it is imported only
inside `get_market_analysis`, a function-local binding), so for every user
id whose cache entry is absent or stale the `random` references in
`get_user_profile` raise `NameError` during generation;
`generate_recommendation` consequently returns the error-tagged payload
with the user id, timestamp and error status, leaves the cache map
unchanged, increments `requests_count` and `errors` by exactly one each,
and never increments `successful_recommendations`. -/
theorem missing_random_import_error_result (s : ApiState) (user_id : ℕ)
    (now : ℚ) (d : Draws) (hc : cacheFresh s user_id now = none) :
    lookupModuleGlobal "random" = Except.error (PyErr.nameError "random") ∧
    get_user_profile user_id d = Except.error (PyErr.nameError "random") ∧
    generate_recommendation s user_id now d =
      (Payload.errPayload
        { error := pyErrMsg (PyErr.nameError "random"), user_id := user_id,
          timestamp := now, system_status := "error" },
       { s with metrics :=
           { s.metrics with requests_count := s.metrics.requests_count + 1,
                            errors := s.metrics.errors + 1 } }) :=
  ⟨lookup_random_err, get_user_profile_err user_id d,
   gen_err_aux s user_id now d _ hc (pipeline_err user_id now d)⟩

/-- Witness for C1 at the initial state, user 1, time 0. -/
theorem missing_random_import_error_result_witness :
    cacheFresh (initialState 0) 1 0 = none ∧
    generate_recommendation (initialState 0) 1 0 sampleDraws =
      (Payload.errPayload
        { error := pyErrMsg (PyErr.nameError "random"), user_id := 1,
          timestamp := 0, system_status := "error" },
       { initialState 0 with metrics :=
           { (initialState 0).metrics with requests_count := 1, errors := 1 } }) :=
  ⟨rfl, (missing_random_import_error_result (initialState 0) 1 0 sampleDraws rfl).2.2⟩

/-- C2 (code-bug evaluation): on a fresh process, two recommendation calls
for the same user one second apart — well within the 300-second TTL —
return distinct error payloads with different timestamps, and the cache is
still empty afterwards: the `NameError` raised in `get_user_profile` aborts
generation before the cache write on lines 82-85 can ever run, so no call
can return a cached payload as the claim describes. -/
theorem ttl_cache_reuse_fails_eval :
    (generate_recommendation (initialState 0) 1 0 sampleDraws).1 ≠
      (generate_recommendation
        ((generate_recommendation (initialState 0) 1 0 sampleDraws).2)
        1 1 sampleDraws).1 ∧
    ((generate_recommendation
        ((generate_recommendation (initialState 0) 1 0 sampleDraws).2)
        1 1 sampleDraws).2).recommendation_cache = [] := by
  decide

/-- C3 (code-bug evaluation): the branch precedence is as claimed on the
three deterministic branches — RSI 25 with bullish trend yields BUY even
for a conservative profile, RSI 80 with bearish trend yields SELL, a
conservative profile with RSI 50 and bullish trend yields HOLD, sideways
trend yields HOLD — but the final branch raises `NameError` when it
evaluates `random.choice`, instead of returning a random element of
set BUY, SELL, HOLD. -/
theorem determine_action_eval :
    determine_action (probeProfile "conservative") (probeMarket 25 "bullish") "SELL"
        = Except.ok "BUY" ∧
    determine_action (probeProfile "aggressive") (probeMarket 80 "bearish") "BUY"
        = Except.ok "SELL" ∧
    determine_action (probeProfile "conservative") (probeMarket 50 "bullish") "BUY"
        = Except.ok "HOLD" ∧
    determine_action (probeProfile "moderate") (probeMarket 50 "sideways") "BUY"
        = Except.ok "HOLD" ∧
    determine_action (probeProfile "moderate") (probeMarket 50 "bullish") "HOLD"
        = Except.error (PyErr.nameError "random") :=
  ⟨rfl, rfl, rfl, rfl, rfl⟩

/-- C4: `calculate_confidence` equals the additive specification formula —
base 0.5, +0.2 for a non-sideways trend, +0.1 for RSI in [30, 70], +0.1
for an expert, −0.1 for a beginner, clamped into [0.1, 0.95] — and its
value always lies within [0.1, 0.95]. -/
theorem calculate_confidence_spec_and_bounds (p : Profile) (m : MarketConditions) :
    calculate_confidence p m =
      min (max ((1/2 : ℚ)
          + (if m.trend ≠ "sideways" then 2/10 else 0)
          + (if 30 ≤ m.rsi ∧ m.rsi ≤ 70 then 1/10 else 0)
          + (if p.experience_level = "expert" then 1/10
             else if p.experience_level = "beginner" then -(1/10) else 0))
        (1/10)) (95/100) ∧
    1/10 ≤ calculate_confidence p m ∧ calculate_confidence p m ≤ 95/100 := by
  unfold calculate_confidence
  refine ⟨?_, le_min (le_max_right _ _) (by norm_num), min_le_right _ _⟩
  split_ifs <;> norm_num

/-- C5: any exception raised during the generation pipeline (steps 1-8) is
caught at the generator's outer boundary: the error counter is incremented
by one and an error-tagged payload carrying the user id, the exception
message, a timestamp and the error status is returned.  The generator
itself is a total function, so no pipeline exception reaches its caller. -/
theorem pipeline_exception_caught (s : ApiState) (user_id : ℕ) (now : ℚ)
    (d : Draws) (e : PyErr) (hc : cacheFresh s user_id now = none)
    (hp : pipeline user_id now d = Except.error e) :
    generate_recommendation s user_id now d =
      (Payload.errPayload
        { error := pyErrMsg e, user_id := user_id, timestamp := now,
          system_status := "error" },
       { s with metrics :=
           { s.metrics with requests_count := s.metrics.requests_count + 1,
                            errors := s.metrics.errors + 1 } }) :=
  gen_err_aux s user_id now d e hc hp

/-- Witness for C5 at the initial state, user 2, time 0. -/
theorem pipeline_exception_caught_witness :
    cacheFresh (initialState 0) 2 0 = none ∧
    pipeline 2 0 sampleDraws = Except.error (PyErr.nameError "random") ∧
    generate_recommendation (initialState 0) 2 0 sampleDraws =
      (Payload.errPayload
        { error := pyErrMsg (PyErr.nameError "random"), user_id := 2,
          timestamp := 0, system_status := "error" },
       { initialState 0 with metrics :=
           { (initialState 0).metrics with requests_count := 1, errors := 1 } }) :=
  ⟨rfl, rfl,
   pipeline_exception_caught (initialState 0) 2 0 sampleDraws
     (PyErr.nameError "random") rfl rfl⟩

/-- C6 counterexample: for user 3 on a fresh process an internal exception
does occur during generation, yet the route returns the error object with
HTTP status 200, not 500 — refuting the claim that the error shape arrives
together with HTTP status 500. -/
theorem route_error_with_200_counterexample :
    (get_recommendation_route (initialState 0) 3 0 sampleDraws).1 =
      (Payload.errPayload
        { error := pyErrMsg (PyErr.nameError "random"), user_id := 3,
          timestamp := 0, system_status := "error" }, 200) ∧
    (200 : ℕ) ≠ 500 := by
  exact ⟨rfl, by decide⟩

/-- C6 amended: the route always responds with HTTP status 200; on an
internal exception during generation the body is the error object with
error message, user id, timestamp and error status — still with status
200, because the generator catches the exception itself, so the route's
500 branch never fires for generation errors. -/
theorem route_status_amended (s : ApiState) (user_id : ℕ) (now : ℚ) (d : Draws)
    (hc : cacheFresh s user_id now = none) :
    (get_recommendation_route s user_id now d).1.2 = 200 ∧
    (get_recommendation_route s user_id now d).1.1 =
      Payload.errPayload
        { error := pyErrMsg (PyErr.nameError "random"), user_id := user_id,
          timestamp := now, system_status := "error" } := by
  have h := gen_err_aux s user_id now d _ hc (pipeline_err user_id now d)
  refine ⟨?_, ?_⟩ <;> simp [get_recommendation_route, h, errorPayload]

/-- Witness for the amended C6 at the initial state, user 4, time 0. -/
theorem route_status_amended_witness :
    cacheFresh (initialState 0) 4 0 = none ∧
    (get_recommendation_route (initialState 0) 4 0 sampleDraws).1.2 = 200 :=
  ⟨rfl, (route_status_amended (initialState 0) 4 0 sampleDraws rfl).1⟩

/-- C7 counterexample: for the 2-decimal current price 2000.01 and action
BUY the stored target price is the rounded value 2100.01, which differs
from the exact product 2000.01 × 1.05 = 2100.0105 the claim asserts. -/
theorem target_price_rounding_counterexample :
    target_price_of (200001/100) "BUY" ≠
      (200001/100 : ℚ) * (1 + get_target_multiplier "BUY") := by
  have hm : get_target_multiplier "BUY" = 5/100 := rfl
  have hx : (200001/100 : ℚ) * (1 + 5/100) = 4200021/2000 := by norm_num
  have hr := roundTo_eq_of_lt_half 2 (4200021/2000 : ℚ) 210001
    (by rw [Int.floor_eq_iff]; norm_num) (by norm_num)
  simp only [target_price_of, hm]
  rw [hx, hr]
  norm_num

/-- C7 amended: the target price equals currentPrice × (1 + m) rounded to
two decimals with m = 0.05 for BUY, −0.03 for SELL, 0.02 for HOLD and for
any unrecognized action; the stop-loss price equals currentPrice × (1 − m')
rounded to two decimals with m' = 0.03 for BUY, 0.05 for SELL, 0.02 for
HOLD and for any unrecognized action; both multiplier tables are exhaustive
over BUY, SELL, HOLD. -/
theorem multiplier_tables (a : String) (price : ℚ) :
    get_target_multiplier a =
      (if a = "BUY" then 5/100 else if a = "SELL" then -(3/100) else 2/100) ∧
    get_stop_loss_multiplier a =
      (if a = "BUY" then 3/100 else if a = "SELL" then 5/100 else 2/100) ∧
    target_price_of price a =
      roundTo 2 (price * (1 + (if a = "BUY" then 5/100
        else if a = "SELL" then -(3/100) else 2/100))) ∧
    stop_loss_of price a =
      roundTo 2 (price * (1 - (if a = "BUY" then 3/100
        else if a = "SELL" then 5/100 else 2/100))) := by
  have h1 : get_target_multiplier a =
      (if a = "BUY" then 5/100 else if a = "SELL" then -(3/100) else 2/100) := by
    by_cases hb : a = "BUY"
    · subst hb; rfl
    by_cases hs : a = "SELL"
    · subst hs; rfl
    by_cases hh : a = "HOLD"
    · subst hh; rfl
    have hb1 : (a == "BUY") = false := beq_eq_false_iff_ne.mpr hb
    have hs1 : (a == "SELL") = false := beq_eq_false_iff_ne.mpr hs
    have hh1 : (a == "HOLD") = false := beq_eq_false_iff_ne.mpr hh
    simp [get_target_multiplier, List.lookup, hb1, hs1, hh1, hb, hs, hh]
  have h2 : get_stop_loss_multiplier a =
      (if a = "BUY" then 3/100 else if a = "SELL" then 5/100 else 2/100) := by
    by_cases hb : a = "BUY"
    · subst hb; rfl
    by_cases hs : a = "SELL"
    · subst hs; rfl
    by_cases hh : a = "HOLD"
    · subst hh; rfl
    have hb1 : (a == "BUY") = false := beq_eq_false_iff_ne.mpr hb
    have hs1 : (a == "SELL") = false := beq_eq_false_iff_ne.mpr hs
    have hh1 : (a == "HOLD") = false := beq_eq_false_iff_ne.mpr hh
    simp [get_stop_loss_multiplier, List.lookup, hb1, hs1, hh1, hb, hs, hh]
  exact ⟨h1, h2, by rw [target_price_of, h1], by rw [stop_loss_of, h2]⟩

/-- C8 counterexample: the claim quantifies over every counter state; at
requests = 3, successes = 1 the reported success rate is the rounded value
33.33, not (1/3)·100, and at requests = 0, successes = 1 it is 100, not 0 —
so both the exact-quotient reading and the unconditional zero-at-zero
reading fail on raw counter states. -/
theorem success_rate_rounding_counterexample :
    (health_check (probeState 3 1 0) 0).metrics.success_rate ≠ (1/3 : ℚ) * 100 ∧
    (health_check (probeState 0 1 0) 0).metrics.success_rate ≠ 0 := by
  have e1 : (health_check (probeState 3 1 0) 0).metrics.success_rate
      = roundTo 2 (((1 : ℕ) : ℚ) / ((3 : ℕ) : ℚ) * 100) := rfl
  have e2 : (health_check (probeState 0 1 0) 0).metrics.success_rate
      = roundTo 2 (((1 : ℕ) : ℚ) / ((1 : ℕ) : ℚ) * 100) := rfl
  have h1 : ((1 : ℕ) : ℚ) / ((3 : ℕ) : ℚ) * 100 = 100/3 := by norm_num
  have h2 : ((1 : ℕ) : ℚ) / ((1 : ℕ) : ℚ) * 100 = 100 := by norm_num
  have r1 := roundTo_eq_of_lt_half 2 (100/3 : ℚ) 3333
    (by rw [Int.floor_eq_iff]; norm_num) (by norm_num)
  have r2 := roundTo_eq_of_lt_half 2 (100 : ℚ) 10000
    (by rw [Int.floor_eq_iff]; norm_num) (by norm_num)
  constructor
  · rw [e1, h1, r1]; norm_num
  · rw [e2, h2, r2]; norm_num

/-- C8 amended: the health snapshot's success rate equals
successTotal / max(requestsTotal, 1) × 100 rounded to two decimals; the
divisor is at least 1, so the division never faults; and in every reachable
counter state successTotal ≤ requestsTotal, so when requestsTotal = 0 the
success rate is 0. -/
theorem success_rate_guarded (s : ApiState) (now : ℚ) (h : Reachable s) :
    (health_check s now).metrics.success_rate =
      roundTo 2 (((s.metrics.successful_recommendations : ℚ) /
        ((max s.metrics.requests_count 1 : ℕ) : ℚ)) * 100) ∧
    1 ≤ max s.metrics.requests_count 1 ∧
    s.metrics.successful_recommendations ≤ s.metrics.requests_count ∧
    (s.metrics.requests_count = 0 →
      (health_check s now).metrics.success_rate = 0) := by
  have hz := reachable_succ_zero s h
  refine ⟨rfl, le_max_right _ _, by omega, fun _ => ?_⟩
  have h0 : (health_check s now).metrics.success_rate = roundTo 2 0 := by
    simp [health_check, hz]
  have h1 := roundTo_eq_of_lt_half 2 (0 : ℚ) 0 (by norm_num) (by norm_num)
  rw [h0, h1]
  norm_num

/-- Witness for the amended C8 at the freshly initialised state. -/
theorem success_rate_guarded_witness :
    Reachable (initialState 0) ∧
    (health_check (initialState 0) 0).metrics.success_rate = 0 :=
  ⟨⟨0, [], rfl⟩,
   (success_rate_guarded (initialState 0) 0 ⟨0, [], rfl⟩).2.2.2 rfl⟩

/-- C9 (code-bug evaluation): the deterministic index subexpressions of
`get_user_profile` give risk tolerance `risk_levels[user_id % 3]` and
experience level `experience_levels[(user_id // 3) % 3]` exactly as
claimed — e.g. user 4 maps to moderate and intermediate, user 7 to
moderate and expert — but the function itself then raises `NameError`
evaluating `random.choice` for the portfolio field, so it never returns
any profile dict at all. -/
theorem user_profile_eval :
    riskToleranceOf 4 = "moderate" ∧ experienceLevelOf 4 = "intermediate" ∧
    riskToleranceOf 7 = "moderate" ∧ experienceLevelOf 7 = "expert" ∧
    get_user_profile 4 sampleDraws = Except.error (PyErr.nameError "random") :=
  ⟨rfl, rfl, rfl, rfl, rfl⟩

/-- C10: across any sequence of operations the three metrics counters never
decrease; every call to `generate_recommendation` increments
`requests_count` by exactly one; and the health and metrics reads leave the
state untouched. -/
theorem counters_monotone (s : ApiState) (ops : List Op) :
    s.metrics.requests_count ≤ (runOps s ops).metrics.requests_count ∧
    s.metrics.successful_recommendations ≤
      (runOps s ops).metrics.successful_recommendations ∧
    s.metrics.errors ≤ (runOps s ops).metrics.errors ∧
    (∀ (user_id : ℕ) (now : ℚ) (d : Draws),
      ((generate_recommendation s user_id now d).2).metrics.requests_count =
        s.metrics.requests_count + 1) ∧
    (∀ now : ℚ, step s (Op.healthOp now) = s ∧ step s (Op.metricsOp now) = s) := by
  obtain ⟨h1, h2, h3⟩ := runOps_metrics s ops
  exact ⟨h1, le_of_eq h2.symm, h3,
    fun u n d => (gen_metrics s u n d).1, fun _ => ⟨rfl, rfl⟩⟩

end GoldMIND
